import Mathlib

/-!
Shallow embedding of the l-lab-site authentication/authorization core:
the credential issuer (`netlify/functions/auth.ts`), the resource handler
(`netlify/functions/posts.ts`) and the client authorization helpers
(`src/lib/api.ts`).  External primitives (the jsonwebtoken library, bcryptjs,
Prisma's storage operations, the browser's JSON/localStorage) are modelled by
their contracts with executable definitions; thrown JavaScript exceptions are
modelled as explicit error results (`Except` on the client, the catch-all
500 branch in the handlers).
-/

/-- A stored identity row of the `user` table: the columns the two handlers
read (`id`, `email`, `password` hash) plus the projection columns the client
model (`src/lib/api.ts` `User`) exposes (`name`, `role`, `avatarUrl`). -/
structure User where
  id : String
  name : String
  email : String
  password : String
  role : String
  avatarUrl : Option String
deriving Repr, DecidableEq

/-- A JSON web token as the `jsonwebtoken` library treats it: either the
result of `jwt.sign({userId}, secret)` or an arbitrary non-token string
(garbage, or a token whose signature does not check).  The byte-level wire
format of the external library is abstracted into this inductive. -/
inductive Token where
  | signed (userId : String) (secret : String)
  | malformed (raw : String)
deriving Repr, DecidableEq

/-- Contract of `jwt.verify(token, secret)`: succeeds exactly on a token
signed under the same secret, returning its payload; on anything else the
library throws, which the caller in `posts.ts` catches — modelled as `none`. -/
def jwtVerify (t : Token) (secret : String) : Option String :=
  match t with
  | .signed userId s => if s = secret then some userId else none
  | .malformed _ => none

/-- Contract of `jwt.sign({ userId: id }, secret)` (`auth.ts` line 31). -/
def jwtSign (userId : String) (secret : String) : Token :=
  .signed userId secret

/-- `verifyToken` from `posts.ts` lines 9–15: `jwt.verify` inside
`try/catch`, returning the decoded `{userId}` or `null`.  Total by
construction: the catch is absorbed into `jwtVerify` returning `none`. -/
def verifyToken (token : Token) (secret : String) : Option String :=
  jwtVerify token secret

/-- The `authorization` request header, modelled at word granularity: `none`
when the header is absent, otherwise the list of its space-separated words
(each word read as a `Token`; plain text such as the scheme word `Bearer` is
a `.malformed` word).  `event.headers.authorization?.split(' ')[1]` takes the
word after the first space, hence index 1. -/
def extractBearer (authorization : Option (List Token)) : Option Token :=
  match authorization with
  | none => none
  | some words => words[1]?

/-- `posts.ts` lines 19–20: `const token = ...split(' ')[1]`;
`const decoded = token ? verifyToken(token) : null`. -/
def decodedOf (authorization : Option (List Token)) (secret : String) : Option String :=
  match extractBearer authorization with
  | some t => verifyToken t secret
  | none => none

/-- A row of the `tag` table: `{id, name}` with `name` unique. -/
structure Tag where
  id : Nat
  name : String
deriving Repr, DecidableEq

/-- A row of the `post` table, with its many-to-many tag associations
(the implicit join table, a set of tag ids). -/
structure StoredPost where
  id : Nat
  title : String
  content : String
  category : String
  authorId : String
  tagIds : List Nat
deriving Repr, DecidableEq

/-- The storage state behind the Prisma client: the three tables plus the
id counters for freshly created rows. -/
structure Db where
  users : List User
  tags : List Tag
  posts : List StoredPost
  nextTagId : Nat
  nextPostId : Nat
deriving Repr, DecidableEq

/-- The `select` on `author` used by both the GET and the POST branch of
`posts.ts`: exactly `{id, name, email, avatarUrl}`. -/
structure AuthorProjection where
  id : String
  name : String
  email : String
  avatarUrl : Option String
deriving Repr, DecidableEq

/-- The author `select` applied to a user row. -/
def authorSelect (u : User) : AuthorProjection :=
  { id := u.id, name := u.name, email := u.email, avatarUrl := u.avatarUrl }

/-- `prisma.user.findUnique({ where: { email } })`: lookup by the unique
`email` column, modelled as the first match in the table. -/
def findUserByEmail (users : List User) (email : String) : Option User :=
  users.find? (fun u => u.email == email)

/-- Lookup of a user row by primary key (the `include: { author ... }`
relation resolution). -/
def findUserById (users : List User) (uid : String) : Option User :=
  users.find? (fun u => u.id == uid)

/-- An article as serialized in a `posts.ts` response: the post row with the
author projection and the tag rows inlined (`include: {author: {select...},
tags: true}`). -/
structure ArticleOut where
  id : Nat
  title : String
  content : String
  category : String
  authorId : String
  author : Option AuthorProjection
  tags : List Tag
deriving Repr, DecidableEq

/-- Serialization of one stored post against a storage state: resolve the
author relation through the four-field `select`, inline the tag rows. -/
def renderPost (db : Db) (p : StoredPost) : ArticleOut :=
  { id := p.id, title := p.title, content := p.content, category := p.category,
    authorId := p.authorId,
    author := (findUserById db.users p.authorId).map authorSelect,
    tags := p.tagIds.filterMap (fun tid => db.tags.find? (fun t => t.id == tid)) }

/-- Intermediate state while Prisma processes the nested
`tags: { connectOrCreate: ... }` list of a create. -/
structure TagState where
  tags : List Tag
  nextTagId : Nat
  connected : List Nat
deriving Repr, DecidableEq

/-- One `connectOrCreate` entry `{where: {name}, create: {name}}` (external
ORM collaborator, `posts.ts` lines 56–59): resolve the unique `name` to the
existing tag or create a fresh one, then connect it; the join table is keyed
by (post, tag), so connecting an already-connected tag adds nothing. -/
def connectOrCreateTag (st : TagState) (name : String) : TagState :=
  match st.tags.find? (fun t => t.name == name) with
  | some t =>
      { st with connected := if st.connected.contains t.id then st.connected
                             else st.connected ++ [t.id] }
  | none =>
      { tags := st.tags ++ [{ id := st.nextTagId, name := name }],
        nextTagId := st.nextTagId + 1,
        connected := st.connected ++ [st.nextTagId] }

/-- Process the whole `tags.map(tag => ({where:{name:tag}, create:{name:tag}}))`
list left to right. -/
def connectOrCreateAll (tags : List Tag) (nextTagId : Nat) (names : List String) : TagState :=
  names.foldl connectOrCreateTag { tags := tags, nextTagId := nextTagId, connected := [] }

/-- The JSON body of a create request as the handler destructures it:
`const { title, content, category, tags } = JSON.parse(event.body || '\x7b\x7d')`.
`tags := none` models a body without a `tags` field (then `tags.map` throws);
`author` models an extra client-supplied field the handler never reads. -/
structure PostBody where
  title : String
  content : String
  category : String
  tags : Option (List String)
  author : Option String
deriving Repr, DecidableEq

/-- The raw request body: absent (`event.body` null, so `JSON.parse('\x7b\x7d')`
yields an object with no fields and `tags.map` throws), unparseable JSON
(`JSON.parse` throws), or a parsed object. -/
inductive ReqBody where
  | absent
  | malformed (raw : String)
  | parsed (b : PostBody)
deriving Repr, DecidableEq

/-- A request as `posts.ts` sees it. -/
structure PostsRequest where
  httpMethod : String
  authorization : Option (List Token)
  body : ReqBody
deriving Repr, DecidableEq

/-- A serialized response body of `posts.ts`. -/
inductive RespBody where
  | message (msg : String)
  | articles (arts : List ArticleOut)
  | article (art : ArticleOut)
deriving Repr, DecidableEq

/-- An HTTP response of `posts.ts`. -/
structure HttpResponse where
  statusCode : Nat
  body : RespBody
deriving Repr, DecidableEq

/-- The `posts.ts` handler (lines 17–93): GET lists all posts with author
projection and tags; POST requires a decoded token, then creates the post
with `authorId: decoded.userId` and `connectOrCreate` tag associations;
other methods get 405.  Every thrown exception (bad JSON, missing `tags`
field) is caught by the outer try/catch into a 500.  Returns the response
together with the storage state after the request. -/
def postsHandler (secret : String) (event : PostsRequest) (db : Db) : HttpResponse × Db :=
  if event.httpMethod = "GET" then
    ({ statusCode := 200, body := .articles (db.posts.map (renderPost db)) }, db)
  else if event.httpMethod = "POST" then
    match decodedOf event.authorization secret with
    | none => ({ statusCode := 401, body := .message "Unauthorized" }, db)
    | some uid =>
      match event.body with
      | .parsed b =>
        match b.tags with
        | some tagNames =>
          let st := connectOrCreateAll db.tags db.nextTagId tagNames
          let newPost : StoredPost :=
            { id := db.nextPostId, title := b.title, content := b.content,
              category := b.category, authorId := uid, tagIds := st.connected }
          let db' : Db :=
            { db with tags := st.tags, nextTagId := st.nextTagId,
                      posts := db.posts ++ [newPost], nextPostId := db.nextPostId + 1 }
          ({ statusCode := 201, body := .article (renderPost db' newPost) }, db')
        | none => ({ statusCode := 500, body := .message "Internal server error" }, db)
      | _ => ({ statusCode := 500, body := .message "Internal server error" }, db)
  else
    ({ statusCode := 405, body := .message "Method not allowed" }, db)

/-- Contract of the bcryptjs one-way hash: an injective tagging of the
password (the concrete digest of the external library is abstract). -/
def bcryptHash (password : String) : String :=
  "bcrypt$" ++ password

/-- `bcrypt.compare(password, storedHash)`: true exactly when the stored
hash is the hash of the supplied password. -/
def bcryptCompare (password hash : String) : Bool :=
  hash == bcryptHash password

/-- The JSON body of an `/auth` request as the handler destructures it:
`const { email, password, action } = JSON.parse(event.body || '\x7b\x7d')`. -/
inductive AuthReqBody where
  | malformed (raw : String)
  | parsed (email : String) (password : String) (action : Option String)
deriving Repr, DecidableEq

/-- `{ ...user, password: undefined }` as serialized by `JSON.stringify`:
every user column except `password` (a field set to `undefined` is dropped
from the JSON output). -/
structure LoginUserOut where
  id : String
  name : String
  email : String
  role : String
  avatarUrl : Option String
deriving Repr, DecidableEq

/-- Strip the password from a user row for the login response. -/
def stripPassword (u : User) : LoginUserOut :=
  { id := u.id, name := u.name, email := u.email, role := u.role, avatarUrl := u.avatarUrl }

/-- A serialized response body of `auth.ts`. -/
inductive AuthRespBody where
  | message (msg : String)
  | success (token : Token) (user : LoginUserOut)
deriving Repr, DecidableEq

/-- An HTTP response of `auth.ts`. -/
structure AuthResponse where
  statusCode : Nat
  body : AuthRespBody
deriving Repr, DecidableEq

/-- The `auth.ts` handler (lines 10–48): POST only; on `action === 'login'`
look up the user by email, compare the password against the stored bcrypt
hash, and on match sign a `{userId}` token and return it with the
password-stripped user; a missing user and a failed compare are the same
401; any other action is a 400; a thrown exception (bad JSON) is a 500. -/
def authHandler (secret : String) (httpMethod : String) (body : AuthReqBody) (db : Db) : AuthResponse :=
  if httpMethod ≠ "POST" then
    { statusCode := 405, body := .message "Method not allowed" }
  else
    match body with
    | .malformed _ => { statusCode := 500, body := .message "Internal server error" }
    | .parsed email password action =>
      if action = some "login" then
        match findUserByEmail db.users email with
        | none => { statusCode := 401, body := .message "Invalid credentials" }
        | some user =>
          if bcryptCompare password user.password then
            { statusCode := 200,
              body := .success (jwtSign user.id secret) (stripPassword user) }
          else
            { statusCode := 401, body := .message "Invalid credentials" }
      else
        { statusCode := 400, body := .message "Invalid action" }

/-- The body `api.login` actually sends (`src/lib/api.ts` lines 64–74):
`JSON.stringify({ email, password })` — it carries no `action` field. -/
def loginRequestBody (email password : String) : AuthReqBody :=
  .parsed email password none

/-- The client-side cached identity projection (`localStorage` key `user`),
with `role` an arbitrary string as far as the cache is concerned. -/
structure CachedUser where
  id : String
  name : String
  email : String
  role : String
  avatarUrl : Option String
deriving Repr, DecidableEq

/-- The possible contents of the local cache's `user` entry: absent
(`getItem` returns null), a valid JSON serialization of some projection, or
a string that is not a valid serialization. -/
inductive CacheEntry where
  | absent
  | json (u : CachedUser)
  | corrupt (raw : String)
deriving Repr, DecidableEq

/-- `utils.getCurrentUser` (`api.ts` lines 248–251):
`userStr ? JSON.parse(userStr) : null`.  An absent entry (and the falsy
empty string) yields null; a valid serialization parses; on any other
non-empty string `JSON.parse` throws a SyntaxError, which the function does
not catch — modelled as `Except.error`. -/
def getCurrentUser (entry : CacheEntry) : Except String (Option CachedUser) :=
  match entry with
  | .absent => .ok none
  | .json u => .ok (some u)
  | .corrupt raw =>
      if raw = "" then .ok none
      else .error "SyntaxError: Unexpected token in JSON"

/-- The `roles` lookup table of `utils.hasPermission`:
`{admin: 3, teacher: 2, student: 1}`; indexing with any other string yields
`undefined`, modelled as `none`. -/
def roleRank? (role : String) : Option Nat :=
  if role = "admin" then some 3
  else if role = "teacher" then some 2
  else if role = "student" then some 1
  else none

/-- JavaScript `a >= b` on the results of the table lookups: when either
side is `undefined` the comparison is `NaN >= x` or `x >= NaN`, which is
false; it never throws. -/
def jsGe (a b : Option Nat) : Bool :=
  match a, b with
  | some x, some y => decide (y ≤ x)
  | _, _ => false

/-- `utils.hasPermission(requiredRole)` (`api.ts` lines 260–271): read the
cached user (propagating a parse exception), deny without a user, otherwise
compare the table ranks with JavaScript `>=`. -/
def hasPermission (entry : CacheEntry) (requiredRole : String) : Except String Bool :=
  match getCurrentUser entry with
  | .error e => .error e
  | .ok none => .ok false
  | .ok (some u) => .ok (jsGe (roleRank? u.role) (roleRank? requiredRole))

/-! ### Concrete fixtures used by witnesses and counterexamples -/

/-- A stored identity whose password hash matches the password `pw1`. -/
def userAlice : User :=
  { id := "u1", name := "Alice", email := "alice@example.com",
    password := bcryptHash "pw1", role := "teacher", avatarUrl := none }

/-- A one-user storage state with empty tag and post tables. -/
def dbOne : Db :=
  { users := [userAlice], tags := [], posts := [], nextTagId := 0, nextPostId := 0 }

/-- An `authorization` header `Bearer <token>` carrying a token signed for
`uid` under `secret`. -/
def bearerFor (uid secret : String) : Option (List Token) :=
  some [.malformed "Bearer", .signed uid secret]

/-! ### Claim theorems -/

/-- Claim C4: bearer-token processing is total (it is a Lean function, with
the library throw absorbed into `jwtVerify = none`); the token is the word
after the first space of the `authorization` header; an absent header and a
token failing signature verification both yield the same unauthenticated
state `decoded = none`. -/
theorem c4_token_processing_never_throws (secret : String) :
    decodedOf none secret = none
  ∧ (∀ w t rest, extractBearer (some (w :: t :: rest)) = some t)
  ∧ (∀ auth, decodedOf auth secret
        = (extractBearer auth).bind (fun t => verifyToken t secret))
  ∧ (∀ auth, extractBearer auth = none → decodedOf auth secret = none)
  ∧ (∀ auth t, extractBearer auth = some t → jwtVerify t secret = none →
        decodedOf auth secret = none)
  ∧ (∀ raw, verifyToken (.malformed raw) secret = none)
  ∧ (∀ uid s, s ≠ secret → verifyToken (.signed uid s) secret = none) := by
  refine ⟨rfl, fun w t rest => by simp [extractBearer], ?_, ?_, ?_, fun raw => rfl, ?_⟩
  · intro auth
    cases h : extractBearer auth <;> simp [decodedOf, h]
  · intro auth h
    simp [decodedOf, h]
  · intro auth t h hv
    simp [decodedOf, h, verifyToken, hv]
  · intro uid s hs
    simp [verifyToken, jwtVerify, hs]

/-- Witness for C4 at a concrete wrong-secret token and a concrete header. -/
theorem c4_token_processing_never_throws_witness :
    verifyToken (.signed "u1" "other") "secret0" = none := by
  exact (c4_token_processing_never_throws "secret0").2.2.2.2.2.2 "u1" "other" (by decide)

/-- Claim C2: for a stored identity matched by `(email, password)` the issuer
returns 200 with a token that `verify` decodes back to that identity's id
(sign/verify round-trip under one secret); for a non-matching pair it
returns 401 `Invalid credentials` whose body carries no token. -/
theorem c2_issue_then_verify (secret : String) (db : Db) :
    (∀ email password u, findUserByEmail db.users email = some u →
        bcryptCompare password u.password = true →
        authHandler secret "POST" (.parsed email password (some "login")) db
          = { statusCode := 200,
              body := .success (jwtSign u.id secret) (stripPassword u) }
        ∧ jwtVerify (jwtSign u.id secret) secret = some u.id)
  ∧ (∀ email password,
        (∀ u, findUserByEmail db.users email = some u →
            bcryptCompare password u.password = false) →
        authHandler secret "POST" (.parsed email password (some "login")) db
          = { statusCode := 401, body := .message "Invalid credentials" }) := by
  constructor
  · intro email password u hfind hcmp
    constructor
    · simp [authHandler, hfind, hcmp]
    · simp [jwtSign, jwtVerify]
  · intro email password hno
    cases hfind : findUserByEmail db.users email with
    | none => simp [authHandler, hfind]
    | some u => simp [authHandler, hfind, hno u hfind]

/-- Witness for C2: the fixture user logs in with the matching password and
the issued token verifies back to the fixture user's id. -/
theorem c2_issue_then_verify_witness :
    authHandler "topsecret" "POST"
        (.parsed "alice@example.com" "pw1" (some "login")) dbOne
      = { statusCode := 200,
          body := .success (jwtSign userAlice.id "topsecret") (stripPassword userAlice) }
    ∧ jwtVerify (jwtSign userAlice.id "topsecret") "topsecret" = some userAlice.id :=
  (c2_issue_then_verify "topsecret" dbOne).1 "alice@example.com" "pw1" userAlice rfl rfl

/-- Claim C8 (code bug): the body `api.login` sends has no `action` field, so
the credential issuer answers 400 `Invalid action` for every email/password
pair and every storage state — the client's own login request never reaches
the `action === 'login'` branch and can never yield 200. -/
theorem c8_client_login_always_rejected (secret email password : String) (db : Db) :
    authHandler secret "POST" (loginRequestBody email password) db
      = { statusCode := 400, body := .message "Invalid action" } := by
  simp [authHandler, loginRequestBody]

/-- Claim C5 counterexample: on a corrupt non-empty cache entry
`getCurrentUser` propagates the `JSON.parse` exception instead of returning
`none`, contrary to the claim. -/
theorem c5_counterexample :
    getCurrentUser (.corrupt "not-json")
        = Except.error "SyntaxError: Unexpected token in JSON"
    ∧ getCurrentUser (.corrupt "not-json") ≠ Except.ok none := by
  refine ⟨rfl, fun h => ?_⟩
  rw [show getCurrentUser (.corrupt "not-json")
        = Except.error "SyntaxError: Unexpected token in JSON" from rfl] at h
  exact Except.noConfusion h

/-- Claim C5 amended: `getCurrentUser` returns the parsed projection on a
valid serialization and `none` on an absent (or empty, hence falsy) entry,
but on any other corrupt entry the uncaught `JSON.parse` exception
propagates. -/
theorem c5_getCurrentUser_behavior :
    (∀ u, getCurrentUser (.json u) = .ok (some u))
  ∧ getCurrentUser .absent = .ok none
  ∧ getCurrentUser (.corrupt "") = .ok none
  ∧ (∀ raw, raw ≠ "" →
        getCurrentUser (.corrupt raw)
          = .error "SyntaxError: Unexpected token in JSON") := by
  refine ⟨fun u => rfl, rfl, rfl, fun raw h => ?_⟩
  simp [getCurrentUser, h]

/-- Witness for the amended C5 at a concrete corrupt entry. -/
theorem c5_getCurrentUser_behavior_witness :
    getCurrentUser (.corrupt "oops") = .error "SyntaxError: Unexpected token in JSON" :=
  c5_getCurrentUser_behavior.2.2.2 "oops" (by decide)

/-- Claim C6: `hasPermission` answers true exactly when a cached user exists
and the role table ranks user role at least as high as the required role
(admin 3 > teacher 2 > student 1); a teacher passes student/teacher checks
and fails admin; no cached user denies everything; an unknown role string on
either side is denied without any exception. -/
theorem c6_hasPermission_rank_order :
    (∀ entry r, hasPermission entry r = .ok true ↔
        ∃ u ru rr, getCurrentUser entry = .ok (some u)
          ∧ roleRank? u.role = some ru ∧ roleRank? r = some rr ∧ rr ≤ ru)
  ∧ (∀ u : CachedUser, u.role = "teacher" →
        hasPermission (.json u) "student" = .ok true
      ∧ hasPermission (.json u) "teacher" = .ok true
      ∧ hasPermission (.json u) "admin" = .ok false)
  ∧ (∀ r, hasPermission .absent r = .ok false)
  ∧ (∀ (u : CachedUser) r, roleRank? u.role = none →
        hasPermission (.json u) r = .ok false)
  ∧ (∀ (u : CachedUser) r, roleRank? r = none →
        hasPermission (.json u) r = .ok false)
  ∧ (∀ (u : CachedUser) r, ∃ b, hasPermission (.json u) r = .ok b) := by
  refine ⟨?_, ?_, fun r => rfl, ?_, ?_, fun u r => ⟨_, rfl⟩⟩
  · intro entry r
    cases entry with
    | absent => simp [hasPermission, getCurrentUser]
    | json u =>
      cases hru : roleRank? u.role with
      | none => simp [hasPermission, getCurrentUser, jsGe, hru]
      | some x =>
        cases hrr : roleRank? r with
        | none =>
          simp [hasPermission, getCurrentUser, jsGe, hru, hrr]
        | some y =>
          simp [hasPermission, getCurrentUser, jsGe, hru, hrr]
    | corrupt raw =>
      by_cases h : raw = "" <;> simp [hasPermission, getCurrentUser, h]
  · intro u h
    refine ⟨?_, ?_, ?_⟩ <;>
      simp [hasPermission, getCurrentUser, roleRank?, h, jsGe]
  · intro u r h
    cases hrr : roleRank? r <;> simp [hasPermission, getCurrentUser, jsGe, h, hrr]
  · intro u r h
    cases hru : roleRank? u.role <;> simp [hasPermission, getCurrentUser, jsGe, h, hru]

/-- Witness for C6: a concrete cached teacher passes the student check. -/
theorem c6_hasPermission_rank_order_witness :
    hasPermission (.json { id := "u1", name := "Alice", email := "alice@example.com",
                           role := "teacher", avatarUrl := none }) "student" = .ok true :=
  (c6_hasPermission_rank_order.2.1 _ rfl).1

/-- Claim C1: on an accepted create the stored article's `authorId` is
exactly the userId decoded from the verified token, and an `author` field in
the request body never influences the handler's result (response or
storage). -/
theorem c1_author_from_token_only
    (secret uid : String) (auth : Option (List Token)) (db : Db)
    (b : PostBody) (names : List String) (a : Option String)
    (hdec : decodedOf auth secret = some uid)
    (htags : b.tags = some names) :
    ((postsHandler secret
        { httpMethod := "POST", authorization := auth, body := .parsed b } db).2.posts
      = db.posts
        ++ [{ id := db.nextPostId, title := b.title, content := b.content,
              category := b.category, authorId := uid,
              tagIds := (connectOrCreateAll db.tags db.nextTagId names).connected }])
  ∧ (postsHandler secret
        { httpMethod := "POST", authorization := auth,
          body := .parsed { b with author := a } } db
      = postsHandler secret
          { httpMethod := "POST", authorization := auth, body := .parsed b } db) := by
  constructor
  · simp [postsHandler, hdec, htags]
  · simp [postsHandler, hdec, htags]

/-- Witness for C1: a concrete create whose body smuggles `author := "evil"`
still stores the token's user id `"u1"`. -/
theorem c1_author_from_token_only_witness :
    ((postsHandler "s"
        { httpMethod := "POST", authorization := bearerFor "u1" "s",
          body := .parsed { title := "T", content := "C", category := "tech",
                            tags := some ["a"], author := some "evil" } } dbOne).2.posts
      = dbOne.posts
        ++ [{ id := dbOne.nextPostId, title := "T", content := "C",
              category := "tech", authorId := "u1",
              tagIds := (connectOrCreateAll dbOne.tags dbOne.nextTagId ["a"]).connected }])
  ∧ (postsHandler "s"
        { httpMethod := "POST", authorization := bearerFor "u1" "s",
          body := .parsed { title := "T", content := "C", category := "tech",
                            tags := some ["a"], author := some "other" } } dbOne
      = postsHandler "s"
          { httpMethod := "POST", authorization := bearerFor "u1" "s",
            body := .parsed { title := "T", content := "C", category := "tech",
                              tags := some ["a"], author := some "evil" } } dbOne) :=
  c1_author_from_token_only "s" "u1" (bearerFor "u1" "s") dbOne
    { title := "T", content := "C", category := "tech",
      tags := some ["a"], author := some "evil" } ["a"] (some "other") rfl rfl

/-- Claim C3 counterexample: a DELETE request with no token — a write
operation per the claim — is answered 405 `Method not allowed`, not the
claimed 401 `Unauthorized`: the handler implements no update/delete/like
routes. -/
theorem c3_counterexample :
    (postsHandler "s" { httpMethod := "DELETE", authorization := none,
                        body := .absent } dbOne).1.statusCode = 405
    ∧ (405 : Nat) ≠ 401 := by
  exact ⟨rfl, by decide⟩

/-- Claim C3 amended: the only implemented write route is create (POST); a
POST whose token is absent, malformed or fails verification is answered 401
with storage untouched, a POST with a valid token and a well-formed body
succeeds with 201 appending one post, and every method other than GET and
POST is answered 405 with storage untouched regardless of the token. -/
theorem c3_write_gate
    (secret : String) (db : Db) (auth : Option (List Token))
    (body : ReqBody) (m : String) (uid : String) (b : PostBody)
    (names : List String) :
    (decodedOf auth secret = none →
        postsHandler secret { httpMethod := "POST", authorization := auth,
                              body := body } db
          = ({ statusCode := 401, body := .message "Unauthorized" }, db))
  ∧ (decodedOf auth secret = some uid → b.tags = some names →
        ((postsHandler secret { httpMethod := "POST", authorization := auth,
                                body := .parsed b } db).1.statusCode = 201
         ∧ (postsHandler secret { httpMethod := "POST", authorization := auth,
                                  body := .parsed b } db).2.posts.length
             = db.posts.length + 1))
  ∧ (m ≠ "GET" → m ≠ "POST" →
        postsHandler secret { httpMethod := m, authorization := auth,
                              body := body } db
          = ({ statusCode := 405, body := .message "Method not allowed" }, db)) := by
  refine ⟨?_, ?_, ?_⟩
  · intro h
    simp [postsHandler, h]
  · intro h htags
    constructor <;> simp [postsHandler, h, htags]
  · intro h1 h2
    simp [postsHandler, h1, h2]

/-- Witness for C3 (amended): tokenless POST is 401 and leaves the store as
it was; a valid-token POST is 201. -/
theorem c3_write_gate_witness :
    postsHandler "s" { httpMethod := "POST", authorization := none,
                       body := .absent } dbOne
      = ({ statusCode := 401, body := .message "Unauthorized" }, dbOne)
    ∧ (postsHandler "s"
        { httpMethod := "POST", authorization := bearerFor "u1" "s",
          body := .parsed { title := "T", content := "C", category := "tech",
                            tags := some ["a"], author := none } } dbOne).1.statusCode = 201 :=
  ⟨(c3_write_gate "s" dbOne none .absent "PUT" "u1"
      { title := "", content := "", category := "", tags := none, author := none } []).1 rfl,
   ((c3_write_gate "s" dbOne (bearerFor "u1" "s")
      (.parsed { title := "T", content := "C", category := "tech",
                 tags := some ["a"], author := none }) "PUT" "u1"
      { title := "T", content := "C", category := "tech",
        tags := some ["a"], author := none } ["a"]).2.1 rfl rfl).1⟩

/-! ### Tag get-or-create invariants (claim C9) -/

/-- Well-formedness of an intermediate tag state: the association list is
duplicate-free and every associated or stored id is below the fresh-id
counter. -/
def TagStateInv (st : TagState) : Prop :=
  st.connected.Nodup
  ∧ (∀ i ∈ st.connected, i < st.nextTagId)
  ∧ (∀ t ∈ st.tags, t.id < st.nextTagId)

theorem connectOrCreateTag_inv (st : TagState) (name : String)
    (h : TagStateInv st) : TagStateInv (connectOrCreateTag st name) := by
  obtain ⟨hnd, hc, ht⟩ := h
  unfold connectOrCreateTag
  cases hfind : st.tags.find? (fun t => t.name == name) with
  | some t =>
    have htid : t.id < st.nextTagId := ht t (List.mem_of_find?_eq_some hfind)
    by_cases hmem : st.connected.contains t.id
    · simp only [hmem, if_pos]
      exact ⟨hnd, hc, ht⟩
    · have hnm : t.id ∉ st.connected := by simpa using hmem
      simp only [hmem, if_neg, Bool.false_eq_true, not_false_eq_true]
      refine ⟨?_, ?_, ht⟩
      · simp [List.nodup_append, hnd, hnm]
      · intro i hi
        rcases List.mem_append.1 hi with h | h
        · exact hc i h
        · simp at h
          subst h
          exact htid
  | none =>
    have hnn : st.nextTagId ∉ st.connected := fun hmem =>
      Nat.lt_irrefl _ (hc _ hmem)
    refine ⟨?_, ?_, ?_⟩
    · simp [List.nodup_append, hnd, hnn]
    · intro i hi
      rcases List.mem_append.1 hi with h | h
      · exact Nat.lt_trans (hc i h) (Nat.lt_succ_self _)
      · simp at h
        subst h
        exact Nat.lt_succ_self _
    · intro tg htg
      rcases List.mem_append.1 htg with h | h
      · exact Nat.lt_trans (ht tg h) (Nat.lt_succ_self _)
      · simp at h
        subst h
        exact Nat.lt_succ_self _

theorem foldl_connectOrCreateTag_inv (names : List String) (st : TagState)
    (h : TagStateInv st) : TagStateInv (names.foldl connectOrCreateTag st) := by
  induction names generalizing st with
  | nil => exact h
  | cons n ns ih => exact ih _ (connectOrCreateTag_inv st n h)

theorem connectOrCreateAll_inv (tags : List Tag) (next : Nat) (names : List String)
    (h : ∀ t ∈ tags, t.id < next) :
    TagStateInv (connectOrCreateAll tags next names) :=
  foldl_connectOrCreateTag_inv names _ ⟨List.nodup_nil, by simp, h⟩

/-- A concrete authenticated create request over the fixture user, carrying
the given tag names. -/
def createReq (tags : List String) : PostsRequest :=
  { httpMethod := "POST", authorization := bearerFor "u1" "s",
    body := .parsed { title := "T", content := "C", category := "tech",
                      tags := some tags, author := none } }

/-- Claim C9: tag association is get-or-create by name — an existing name
resolves to the existing record and creates nothing, any create's
association list is duplicate-free, the concrete create with tags
`["a","a","b"]` associates exactly the two distinct tags `a` and `b`, and a
follow-up create with tag `"a"` reuses the existing record without creating
a duplicate. -/
theorem c9_tags_get_or_create
    (db : Db) (names : List String) (name : String) (t : Tag)
    (hfresh : ∀ tg ∈ db.tags, tg.id < db.nextTagId)
    (hfind : db.tags.find? (fun tg => tg.name == name) = some t) :
    (connectOrCreateAll db.tags db.nextTagId names).connected.Nodup
  ∧ connectOrCreateAll db.tags db.nextTagId [name]
      = { tags := db.tags, nextTagId := db.nextTagId, connected := [t.id] }
  ∧ (postsHandler "s" (createReq ["a", "a", "b"]) dbOne).2.tags
      = [{ id := 0, name := "a" }, { id := 1, name := "b" }]
  ∧ (postsHandler "s" (createReq ["a", "a", "b"]) dbOne).2.posts
      = [{ id := 0, title := "T", content := "C", category := "tech",
           authorId := "u1", tagIds := [0, 1] }]
  ∧ (postsHandler "s" (createReq ["a"])
        (postsHandler "s" (createReq ["a", "a", "b"]) dbOne).2).2.tags
      = [{ id := 0, name := "a" }, { id := 1, name := "b" }]
  ∧ (postsHandler "s" (createReq ["a"])
        (postsHandler "s" (createReq ["a", "a", "b"]) dbOne).2).2.posts
      = [{ id := 0, title := "T", content := "C", category := "tech",
           authorId := "u1", tagIds := [0, 1] },
         { id := 1, title := "T", content := "C", category := "tech",
           authorId := "u1", tagIds := [0] }] := by
  refine ⟨(connectOrCreateAll_inv db.tags db.nextTagId names hfresh).1,
          ?_, by decide, by decide, by decide, by decide⟩
  simp [connectOrCreateAll, connectOrCreateTag, hfind]

/-- Witness for C9: over a store already holding tag `a`, a create with tag
`a` connects the existing record and creates nothing. -/
theorem c9_tags_get_or_create_witness :
    connectOrCreateAll [{ id := 0, name := "a" }] 1 ["a"]
      = { tags := [{ id := 0, name := "a" }], nextTagId := 1, connected := [0] } :=
  (c9_tags_get_or_create
    { users := [], tags := [{ id := 0, name := "a" }], posts := [],
      nextTagId := 1, nextPostId := 0 }
    ["a"] "a" { id := 0, name := "a" } (by decide) rfl).2.1

/-! ### Observational equivalence of storage states (claims C7 and C10) -/

/-- Agreement of two user rows on everything the posts responses can
observe: the key and the four projected columns. -/
def viewEq (u v : User) : Prop :=
  u.id = v.id ∧ u.name = v.name ∧ u.email = v.email ∧ u.avatarUrl = v.avatarUrl

/-- Two user rows equal except possibly the stored password hash. -/
def eqExceptPassword (u v : User) : Prop :=
  u.id = v.id ∧ u.name = v.name ∧ u.email = v.email ∧ u.role = v.role
    ∧ u.avatarUrl = v.avatarUrl

/-- Two user rows equal except possibly the role. -/
def eqExceptRole (u v : User) : Prop :=
  u.id = v.id ∧ u.name = v.name ∧ u.email = v.email ∧ u.password = v.password
    ∧ u.avatarUrl = v.avatarUrl

/-- `find?` over two pointwise-related tables with a predicate that cannot
distinguish related rows: both miss, or both hit related rows. -/
theorem find?_rel {R : User → User → Prop} {p : User → Bool}
    (hp : ∀ u v, R u v → p u = p v) :
    ∀ {l1 l2 : List User}, List.Forall₂ R l1 l2 →
      (l1.find? p = none ∧ l2.find? p = none)
      ∨ ∃ u v, l1.find? p = some u ∧ l2.find? p = some v ∧ R u v := by
  intro l1 l2 h
  induction h with
  | nil => exact Or.inl ⟨rfl, rfl⟩
  | @cons u v l1' l2' huv htl ih =>
    by_cases hpu : p u = true
    · exact Or.inr ⟨u, v, List.find?_cons_of_pos _ hpu,
        List.find?_cons_of_pos _ (by rw [← hp u v huv]; exact hpu), huv⟩
    · have hpv : ¬ p v = true := by rw [← hp u v huv]; exact hpu
      rw [List.find?_cons_of_neg _ hpu, List.find?_cons_of_neg _ hpv]
      exact ih

theorem findUserById_congr {l1 l2 : List User}
    (h : List.Forall₂ viewEq l1 l2) (uid : String) :
    (findUserById l1 uid).map authorSelect
      = (findUserById l2 uid).map authorSelect := by
  have hp : ∀ u v, viewEq u v → (u.id == uid) = (v.id == uid) := fun u v hv => by
    rw [hv.1]
  rcases find?_rel hp h with ⟨h1, h2⟩ | ⟨u, v, h1, h2, hv⟩
  · simp [findUserById, h1, h2]
  · simp [findUserById, h1, h2, authorSelect]
    exact ⟨hv.1, hv.2.1, hv.2.2.1, hv.2.2.2⟩

theorem renderPost_congr (us1 us2 : List User) (tg : List Tag)
    (ps1 ps2 : List StoredPost) (nt np1 np2 : Nat)
    (hu : List.Forall₂ viewEq us1 us2) (p : StoredPost) :
    renderPost ⟨us1, tg, ps1, nt, np1⟩ p = renderPost ⟨us2, tg, ps2, nt, np2⟩ p := by
  simp [renderPost, findUserById_congr hu]

/-- The posts handler's response cannot distinguish storage states whose
user tables agree up to `viewEq` and that agree elsewhere. -/
theorem postsHandler_resp_congr (secret : String) (us1 us2 : List User)
    (tg : List Tag) (ps : List StoredPost) (nt np : Nat)
    (hu : List.Forall₂ viewEq us1 us2) (ev : PostsRequest) :
    (postsHandler secret ev ⟨us1, tg, ps, nt, np⟩).1
      = (postsHandler secret ev ⟨us2, tg, ps, nt, np⟩).1 := by
  obtain ⟨m, auth, body⟩ := ev
  by_cases hm : m = "GET"
  · have hmap : ps.map (renderPost ⟨us1, tg, ps, nt, np⟩)
        = ps.map (renderPost ⟨us2, tg, ps, nt, np⟩) :=
      List.map_congr_left fun p _ => renderPost_congr us1 us2 tg ps ps nt np np hu p
    simp [postsHandler, hm, hmap]
  · by_cases hp2 : m = "POST"
    · cases hdec : decodedOf auth secret with
      | none => simp [postsHandler, hm, hp2, hdec]
      | some uid =>
        cases body with
        | absent => simp [postsHandler, hm, hp2, hdec]
        | malformed raw => simp [postsHandler, hm, hp2, hdec]
        | parsed b =>
          cases hbt : b.tags with
          | none => simp [postsHandler, hm, hp2, hdec, hbt]
          | some names =>
            have hrp := renderPost_congr us1 us2
              (connectOrCreateAll tg nt names).tags
              (ps ++ [{ id := np, title := b.title, content := b.content,
                        category := b.category, authorId := uid,
                        tagIds := (connectOrCreateAll tg nt names).connected }])
              (ps ++ [{ id := np, title := b.title, content := b.content,
                        category := b.category, authorId := uid,
                        tagIds := (connectOrCreateAll tg nt names).connected }])
              (connectOrCreateAll tg nt names).nextTagId (np + 1) (np + 1) hu
              { id := np, title := b.title, content := b.content,
                category := b.category, authorId := uid,
                tagIds := (connectOrCreateAll tg nt names).connected }
            simp [postsHandler, hm, hp2, hdec, hbt, hrp]
    · simp [postsHandler, hm, hp2]

/-- The fixture user with a different stored password hash. -/
def userAliceAlt : User := { userAlice with password := bcryptHash "pw2" }

/-- The fixture store with only the password hash changed. -/
def dbOneAlt : Db := { dbOne with users := [userAliceAlt] }

/-- The fixture user with a different role. -/
def userAliceAdmin : User := { userAlice with role := "admin" }

/-- The fixture store with only the role changed. -/
def dbOneAdmin : Db := { dbOne with users := [userAliceAdmin] }

/-- Claim C7: no server response body carries a stored password — for any
two storage states that differ only in stored password hashes, every posts
response is identical, and the login response is identical whenever the
authentication outcome (the bcrypt comparison) is the same; in particular a
successful login body holds the password-stripped projection. -/
theorem c7_no_password_in_responses
    (secret : String) (db1 db2 : Db)
    (husers : List.Forall₂ eqExceptPassword db1.users db2.users)
    (htags : db1.tags = db2.tags) (hposts : db1.posts = db2.posts)
    (hnt : db1.nextTagId = db2.nextTagId) (hnp : db1.nextPostId = db2.nextPostId)
    (ev : PostsRequest) (email password : String)
    (hsame : ∀ u1 u2, findUserByEmail db1.users email = some u1 →
        findUserByEmail db2.users email = some u2 →
        bcryptCompare password u1.password = bcryptCompare password u2.password) :
    (postsHandler secret ev db1).1 = (postsHandler secret ev db2).1
  ∧ authHandler secret "POST" (.parsed email password (some "login")) db1
      = authHandler secret "POST" (.parsed email password (some "login")) db2 := by
  obtain ⟨us1, tg1, ps1, nt1, np1⟩ := db1
  obtain ⟨us2, tg2, ps2, nt2, np2⟩ := db2
  simp only at husers htags hposts hnt hnp hsame
  subst htags hposts hnt hnp
  constructor
  · exact postsHandler_resp_congr secret us1 us2 tg1 ps1 nt1 np1
      (husers.imp fun u v hv => ⟨hv.1, hv.2.1, hv.2.2.1, hv.2.2.2.2⟩) ev
  · have hpred : ∀ u v, eqExceptPassword u v →
        (u.email == email) = (v.email == email) := fun u v hv => by
      rw [hv.2.2.1]
    rcases find?_rel hpred husers with ⟨h1, h2⟩ | ⟨u, v, h1, h2, hv⟩
    · simp [authHandler, findUserByEmail, h1, h2]
    · have hcmp : bcryptCompare password u.password
          = bcryptCompare password v.password :=
        hsame u v h1 h2
      by_cases hok : bcryptCompare password u.password = true
      · have hok2 : bcryptCompare password v.password = true := by
          rw [← hcmp]; exact hok
        simp [authHandler, findUserByEmail, h1, h2, hok, hok2, jwtSign,
          stripPassword, hv.1, hv.2.1, hv.2.2.1, hv.2.2.2.1, hv.2.2.2.2]
      · have hok2 : ¬ bcryptCompare password v.password = true := by
          rw [← hcmp]; exact hok
        simp [authHandler, findUserByEmail, h1, h2, hok, hok2]

/-- Witness for C7: the fixture store and its password-swapped variant give
identical GET /posts and (failed) login responses. -/
theorem c7_no_password_in_responses_witness :
    (postsHandler "s" { httpMethod := "GET", authorization := none,
                        body := .absent } dbOne).1
      = (postsHandler "s" { httpMethod := "GET", authorization := none,
                            body := .absent } dbOneAlt).1
    ∧ authHandler "s" "POST" (.parsed "alice@example.com" "nope" (some "login")) dbOne
      = authHandler "s" "POST" (.parsed "alice@example.com" "nope" (some "login")) dbOneAlt :=
  c7_no_password_in_responses "s" dbOne dbOneAlt
    (List.Forall₂.cons ⟨rfl, rfl, rfl, rfl, rfl⟩ List.Forall₂.nil)
    rfl rfl rfl rfl
    { httpMethod := "GET", authorization := none, body := .absent }
    "alice@example.com" "nope"
    (fun u1 u2 h1 h2 => by
      rw [show findUserByEmail dbOne.users "alice@example.com"
            = some userAlice from rfl] at h1
      rw [show findUserByEmail dbOneAlt.users "alice@example.com"
            = some userAliceAlt from rfl] at h2
      cases h1
      cases h2
      rfl)

/-- Claim C10: the author object of every posts response holds exactly the
four selected fields id, name, email and avatarUrl; the projection is
independent of the user's role, and two storage states differing only in
roles produce identical GET and POST responses, so a caller cannot derive
role information from a fetched article's author. -/
theorem c10_author_projection_excludes_role
    (db1 db2 : Db)
    (husers : List.Forall₂ eqExceptRole db1.users db2.users)
    (htags : db1.tags = db2.tags) (hposts : db1.posts = db2.posts)
    (hnt : db1.nextTagId = db2.nextTagId) (hnp : db1.nextPostId = db2.nextPostId)
    (secret : String) (ev : PostsRequest) (u : User) (r : String) :
    authorSelect u = { id := u.id, name := u.name, email := u.email,
                       avatarUrl := u.avatarUrl }
  ∧ authorSelect { u with role := r } = authorSelect u
  ∧ (postsHandler secret ev db1).1 = (postsHandler secret ev db2).1 := by
  obtain ⟨us1, tg1, ps1, nt1, np1⟩ := db1
  obtain ⟨us2, tg2, ps2, nt2, np2⟩ := db2
  simp only at husers htags hposts hnt hnp
  subst htags hposts hnt hnp
  refine ⟨rfl, rfl, ?_⟩
  exact postsHandler_resp_congr secret us1 us2 tg1 ps1 nt1 np1
    (husers.imp fun a b hv => ⟨hv.1, hv.2.1, hv.2.2.1, hv.2.2.2.2⟩) ev

/-- Witness for C10: the fixture store and its role-promoted variant give
identical GET /posts responses, and the projection of the fixture user drops
the role. -/
theorem c10_author_projection_excludes_role_witness :
    authorSelect userAlice
      = { id := userAlice.id, name := userAlice.name, email := userAlice.email,
          avatarUrl := userAlice.avatarUrl }
    ∧ authorSelect { userAlice with role := "admin" } = authorSelect userAlice
    ∧ (postsHandler "s" { httpMethod := "GET", authorization := none,
                          body := .absent } dbOne).1
        = (postsHandler "s" { httpMethod := "GET", authorization := none,
                              body := .absent } dbOneAdmin).1 :=
  c10_author_projection_excludes_role dbOne dbOneAdmin
    (List.Forall₂.cons ⟨rfl, rfl, rfl, rfl, rfl⟩ List.Forall₂.nil)
    rfl rfl rfl rfl "s"
    { httpMethod := "GET", authorization := none, body := .absent }
    userAlice "admin"
